import Mathlib

/- Shallow embedding of the session-analysis engine of
`src/tools/analyze_sessions.py` (detectors, classifier, session summarizer,
corpus aggregator) and of the primary-approach distribution built by
`src/tools/create_dashboard.py`, together with theorems settling the claims
about the specification. Python strings are Lean `String`, Python ints are
`Nat`/`Int`, Python real (true-division) arithmetic is `ℚ`. -/

set_option autoImplicit false
set_option maxRecDepth 16384

namespace SessionAnalysis

/-- Python substring containment, `needle in hay` on `str`: some contiguous
run of characters of `hay` is `needle`. -/
def strContains (needle hay : String) : Bool :=
  hay.data.tails.any (fun t => needle.data.isPrefixOf t)

/-- Python `str.lower` (the ASCII case mapping performed by `Char.toLower`,
which covers the transcript strings). Defined by a structural map over the
character list so that it computes inside the kernel. -/
def pyLower (s : String) : String := String.mk (s.data.map Char.toLower)

/-- Scanner of `py_replace`: replaces every non-overlapping occurrence of
`old`, left to right. `fuel` starts as the length of the scanned list, making
the recursion structural; it never runs out for a non-empty `old`. -/
def replace_aux (old new : List Char) : Nat → List Char → List Char
  | _, [] => []
  | 0, s => s
  | fuel + 1, c :: cs =>
    if old.isPrefixOf (c :: cs) then
      new ++ replace_aux old new fuel ((c :: cs).drop old.length)
    else c :: replace_aux old new fuel cs

/-- Python `str.replace(old, new)` for a non-empty `old` pattern (the
analyzer only ever replaces `"+00:00"`). -/
def py_replace (s old new : String) : String :=
  String.mk (replace_aux old.data new.data s.data.length s.data)

/-- Python slicing `s[:n]`. -/
def py_take (s : String) (n : Nat) : String := String.mk (s.data.take n)

/-- Scanner of `py_split`, accumulating the current field in reverse. -/
def split_aux (sep : List Char) : Nat → List Char → List Char → List (List Char)
  | _, acc, [] => [acc.reverse]
  | 0, acc, s => [acc.reverse ++ s]
  | fuel + 1, acc, c :: cs =>
    if sep.isPrefixOf (c :: cs) then
      acc.reverse :: split_aux sep fuel [] ((c :: cs).drop sep.length)
    else split_aux sep fuel (c :: acc) cs

/-- Python `str.split(sep)` for a non-empty separator (the analyzer splits on
`"-"`, `"/projects/"` and `"/sessions/"`); always returns a non-empty list,
the whole string when the separator does not occur. -/
def py_split (s sep : String) : List String :=
  (split_aux sep.data s.data.length [] s.data).map String.mk

/-! Exact rational arithmetic by the num/den formulas. The library operations
`Rat.add`, `Rat.sub`, `Rat.mul` and `Rat.div` are irreducible, so concrete
values could not be evaluated inside proofs; these wrappers reduce, and each
is proved equal to the corresponding field operation below (`qadd_eq`,
`qsub_eq`, `qmul_eq`, `qdiv_eq`), so theorems are stated with the ordinary
operations. -/

/-- Addition on `ℚ`, definitionally computable. -/
def qadd (a b : ℚ) : ℚ := Rat.divInt (a.num * b.den + b.num * a.den) (a.den * b.den)

/-- Subtraction on `ℚ`, definitionally computable. -/
def qsub (a b : ℚ) : ℚ := Rat.divInt (a.num * b.den - b.num * a.den) (a.den * b.den)

/-- Multiplication on `ℚ`, definitionally computable. -/
def qmul (a b : ℚ) : ℚ := Rat.divInt (a.num * b.num) (a.den * b.den)

/-- Division on `ℚ`, definitionally computable. -/
def qdiv (a b : ℚ) : ℚ := Rat.divInt (a.num * b.den) (a.den * b.num)

lemma qadd_eq (a b : ℚ) : qadd a b = a + b := by
  conv_rhs => rw [← Rat.num_divInt_den a, ← Rat.num_divInt_den b]
  rw [Rat.divInt_add_divInt _ _ (Int.natCast_ne_zero.mpr a.den_nz)
    (Int.natCast_ne_zero.mpr b.den_nz)]
  rfl

lemma qsub_eq (a b : ℚ) : qsub a b = a - b := by
  conv_rhs => rw [← Rat.num_divInt_den a, ← Rat.num_divInt_den b]
  rw [Rat.divInt_sub_divInt _ _ (Int.natCast_ne_zero.mpr a.den_nz)
    (Int.natCast_ne_zero.mpr b.den_nz)]
  rfl

lemma qmul_eq (a b : ℚ) : qmul a b = a * b := by
  conv_rhs => rw [← Rat.num_divInt_den a, ← Rat.num_divInt_den b]
  rw [Rat.divInt_mul_divInt']
  rfl

lemma qdiv_eq (a b : ℚ) : qdiv a b = a / b := by
  conv_rhs => rw [← Rat.num_divInt_den a, ← Rat.num_divInt_den b]
  rw [Rat.divInt_div_divInt]
  rfl

/-- `mkRat` is exact division, including the guarded `d = 0` case (both sides
are then `0`), so it models Python `a / b` on integers wherever the source
divides two counts. -/
lemma mkRat_eq_div (n : Int) (d : Nat) : mkRat n d = (n : ℚ) / (d : ℚ) := by
  rw [Rat.mkRat_eq_divInt, Rat.divInt_eq_div]
  norm_num

/-- One typed content block inside a block-list message `content`. The
analyzer only ever reads the `"type"` key of a block
(`detect_planning_vs_execution`), so a block is modelled by that field. -/
structure Block where
  type : String
  deriving DecidableEq, Repr

/-- Message `content` is either a plain string or a list of typed blocks,
mirroring the two shapes the Python code distinguishes with `isinstance`. -/
inductive Content where
  | str (s : String)
  | blocks (bs : List Block)
  deriving DecidableEq, Repr

/-- Python `str()` applied to a `content` value: a plain string is returned
unchanged; a block list is rendered like the textual form of the parsed JSON
list. The exact rendering of block lists is irrelevant to every theorem
below, which never depend on how a block list is stringified. -/
def pyStr : Content → String
  | .str s => s
  | .blocks bs =>
      "[" ++ String.intercalate ", " (bs.map (fun b => "\x7btype: " ++ b.type ++ "\x7d")) ++ "]"

/-- One tool invocation of an assistant message: `call.get("tool", "")` is
`tool`; `args` holds the Python `str()` rendering of
`call.get("arguments", {})`, the only form in which the analyzer ever
consumes the argument mapping. -/
structure ToolCall where
  tool : String
  args : String := ""
  deriving DecidableEq, Repr

/-- One transcript message, with the dictionary fields the analyzer reads via
`msg.get(...)` and their defaults. A missing `role` is modelled as `""`, which
compares unequal to `"user"`, `"assistant"` and `"tool"` exactly like the
Python `None` that `msg.get("role")` would return. -/
structure Message where
  role : String := ""
  content : Content := .str ""
  tool_calls : List ToolCall := []
  timestamp : String := ""
  deriving DecidableEq, Repr

/-- Python regex whitespace class `\s` (ASCII part). -/
def pyIsSpace (c : Char) : Bool :=
  c = ' ' || c = '\t' || c = '\n' || c = '\r' || c = '\x0b' || c = '\x0c'

/-- Attempt to match the regex `use\s+(\S+)` (with `re.IGNORECASE`) at the
head of the character list, returning the captured group. -/
def matchUseAt : List Char → Option (List Char)
  | u :: s :: e :: rest =>
    if u.toLower == 'u' && s.toLower == 's' && e.toLower == 'e' then
      match rest with
      | c :: _ =>
        if pyIsSpace c then
          let tok := (rest.dropWhile pyIsSpace).takeWhile (fun ch => !pyIsSpace ch)
          if tok.isEmpty then none else some tok
        else none
      | [] => none
    else none
  | _ => none

/-- Python `re.search(r"use\s+(\S+)", content, re.IGNORECASE)`: try the match
at every start position, left to right, and return the first capture. -/
def searchUse : List Char → Option String
  | [] => none
  | c :: cs =>
    match matchUseAt (c :: cs) with
    | some tok => some (String.mk tok)
    | none => searchUse cs

/-- The user-message test of `detect_delegation_pattern`: role `"user"`,
string content, and the lowercased text contains both `"use "` (with the
trailing space of the source literal) and `"agent"`. -/
def user_delegation_match (m : Message) : Bool :=
  m.role == "user" &&
    (match m.content with
     | .str s => strContains "use " (pyLower s) && strContains "agent" (pyLower s)
     | .blocks _ => false)

/-- Tool-call half of `detect_delegation_pattern`: how many tool calls of an
assistant message have a raw tool name containing `"agent"` or `"delegate"`
(a case-sensitive containment test in the source). -/
def assistant_delegation_calls (m : Message) : Nat :=
  if m.role == "assistant" then
    (m.tool_calls.filter
      (fun c => strContains "agent" c.tool || strContains "delegate" c.tool)).length
  else 0

/-- Candidate agent name extracted from a user message by the regex search
(on the original, non-lowercased text, exactly as in the source). -/
def extracted_agent (m : Message) : Option String :=
  match m.content with
  | .str s => searchUse s.data
  | .blocks _ => none

/-- Signal record of `detect_delegation_pattern`. Python builds
`list(set(agents_used))`, whose order is unspecified, so the deduplicated
agent-name collection is modelled as a `Finset`. -/
structure DelegationSignal where
  delegation_count : Nat
  agents_used : Finset String
  has_delegation : Bool
  deriving DecidableEq

/-- One iteration of the message loop of `detect_delegation_pattern`,
threading the running `(delegation_count, agents_used)` state. -/
def delegation_step (acc : Nat × List String) (m : Message) : Nat × List String :=
  let acc1 :=
    if user_delegation_match m then
      match extracted_agent m with
      | some a => (acc.1 + 1, acc.2 ++ [a])
      | none => (acc.1 + 1, acc.2)
    else acc
  (acc1.1 + assistant_delegation_calls m, acc1.2)

/-- `SessionAnalyzer.detect_delegation_pattern` (lines 56-86). -/
def detect_delegation_pattern (messages : List Message) : DelegationSignal :=
  let r := messages.foldl delegation_step (0, [])
  { delegation_count := r.1
    agents_used := r.2.toFinset
    has_delegation := decide (0 < r.1) }

/-- The keyword list of `detect_iteration_pattern`. -/
def refinement_keywords : List String :=
  ["refine", "improve", "fix", "update", "revise", "modify", "adjust", "correct"]

/-- Signal record of `detect_iteration_pattern`. -/
structure IterationSignal where
  iteration_count : Nat
  is_iterative : Bool
  deriving DecidableEq

/-- The per-message test of `detect_iteration_pattern`: a user message whose
stringified, lowercased content contains one of the refinement keywords. -/
def iteration_match (m : Message) : Bool :=
  m.role == "user" &&
    refinement_keywords.any (fun k => strContains k (pyLower (pyStr m.content)))

/-- `SessionAnalyzer.detect_iteration_pattern` (lines 88-108). -/
def detect_iteration_pattern (messages : List Message) : IterationSignal :=
  let iterations := (messages.filter iteration_match).length
  { iteration_count := iterations
    is_iterative := decide (2 ≤ iterations) }

/-- The fixed tool-name list of `detect_exploration_pattern`. -/
def exploration_tools : List String := ["read_file", "glob", "grep", "bash", "web_search"]

/-- Signal record of `detect_exploration_pattern`. The `Counter` histogram is
modelled as an association list in key insertion order. -/
structure ExplorationSignal where
  exploration_tool_count : Nat
  parallel_searches : Nat
  is_exploratory : Bool
  tools_used : List (String × Nat)
  deriving DecidableEq, Repr

/-- `Counter` increment: bump the value stored under a key of an association
list, appending a fresh entry for an unseen key. -/
def bump_count : List (String × Nat) → String → List (String × Nat)
  | [], t => [(t, 1)]
  | (k, v) :: rest, t =>
    if k == t then (k, v + 1) :: rest else (k, v) :: bump_count rest t

/-- Value stored under a key of a `Counter` association list, `0` when the
key is absent. -/
def counter_get (l : List (String × Nat)) (k : String) : Nat :=
  match l.find? (fun kv => kv.1 == k) with
  | some kv => kv.2
  | none => 0

/-- One iteration of the message loop of `detect_exploration_pattern`; the
state is the pair `(tool_usage, parallel_searches)`. -/
def exploration_step (acc : List (String × Nat) × Nat) (m : Message) :
    List (String × Nat) × Nat :=
  if m.role == "assistant" then
    let acc1 := if 1 < m.tool_calls.length then (acc.1, acc.2 + 1) else acc
    (m.tool_calls.foldl
      (fun h c => if exploration_tools.contains c.tool then bump_count h c.tool else h)
      acc1.1,
     acc1.2)
  else acc

/-- `SessionAnalyzer.detect_exploration_pattern` (lines 110-134);
`total` is `sum(tool_usage.values())`. -/
def detect_exploration_pattern (messages : List Message) : ExplorationSignal :=
  let r := messages.foldl exploration_step ([], 0)
  let total := (r.1.map (fun kv => kv.2)).sum
  { exploration_tool_count := total
    parallel_searches := r.2
    is_exploratory := decide (5 ≤ total) || decide (2 ≤ r.2)
    tools_used := r.1 }

/-- Signal record of `detect_implementation_pattern`. -/
structure ImplementationSignal where
  write_operations : Nat
  edit_operations : Nat
  total_file_ops : Nat
  is_implementation : Bool
  deriving DecidableEq, Repr

/-- `SessionAnalyzer.detect_implementation_pattern` (lines 136-158): tallies
assistant tool calls named exactly `write_file` or `edit_file`. -/
def detect_implementation_pattern (messages : List Message) : ImplementationSignal :=
  let writes := ((messages.filter (fun m => m.role == "assistant")).map
    (fun m => (m.tool_calls.filter (fun c => c.tool == "write_file")).length)).sum
  let edits := ((messages.filter (fun m => m.role == "assistant")).map
    (fun m => (m.tool_calls.filter (fun c => c.tool == "edit_file")).length)).sum
  { write_operations := writes
    edit_operations := edits
    total_file_ops := writes + edits
    is_implementation := decide (3 ≤ writes + edits) }

/-- The error test of `detect_error_recovery`: a tool-role message whose
stringified, lowercased content contains `"error"` or `"failed"`. -/
def error_message (m : Message) : Bool :=
  m.role == "tool" &&
    (strContains "error" (pyLower (pyStr m.content)) ||
      strContains "failed" (pyLower (pyStr m.content)))

/-- Contribution of the lookahead `messages[i + 1].get("role") == "assistant"`
check: `1` when the next message exists and has role `"assistant"`. -/
def next_assistant : List Message → Nat
  | n :: _ => if n.role == "assistant" then 1 else 0
  | [] => 0

/-- The indexed scan of `detect_error_recovery`, returning
`(errors, recovery_attempts)`. -/
def error_scan : List Message → Nat × Nat
  | [] => (0, 0)
  | m :: rest =>
    if error_message m then
      ((error_scan rest).1 + 1, (error_scan rest).2 + next_assistant rest)
    else error_scan rest

/-- Signal record of `detect_error_recovery`; the rate is Python true
division, modelled exactly in `ℚ`. -/
structure ErrorRecoverySignal where
  errors_encountered : Nat
  recovery_attempts : Nat
  has_error_recovery : Bool
  recovery_rate : ℚ
  deriving DecidableEq, Repr

/-- `SessionAnalyzer.detect_error_recovery` (lines 160-182). -/
def detect_error_recovery (messages : List Message) : ErrorRecoverySignal :=
  let r := error_scan messages
  { errors_encountered := r.1
    recovery_attempts := r.2
    has_error_recovery := decide (0 < r.1) && decide (0 < r.2)
    recovery_rate := if 0 < r.1 then mkRat (r.2 : Int) r.1 else 0 }

/-- Signal record of `detect_planning_vs_execution`. -/
structure PlanningSignal where
  planning_messages : Nat
  execution_messages : Nat
  planning_ratio : ℚ
  approach : String
  deriving DecidableEq, Repr

/-- `SessionAnalyzer.detect_planning_vs_execution` (lines 184-211); the float
literals `0.6` and `0.3` of the source are the rationals `3/5` and `3/10`. -/
def detect_planning_vs_execution (messages : List Message) : PlanningSignal :=
  let planning : Nat := ((messages.filter (fun m => m.role == "assistant")).map (fun m =>
    match m.content with
    | .blocks bs => (bs.filter (fun b => b.type == "thinking")).length
    | .str _ => 0)).sum
  let execution : Nat := ((messages.filter (fun m => m.role == "assistant")).map (fun m =>
    match m.content with
    | .blocks bs => (bs.filter (fun b => b.type == "tool_call")).length
    | .str _ => 0)).sum
  let total : Nat := planning + execution
  let ratio : ℚ := if 0 < total then mkRat (planning : Int) total else 0
  { planning_messages := planning
    execution_messages := execution
    planning_ratio := ratio
    approach :=
      if mkRat 3 5 < ratio then "planning-heavy"
      else if ratio < mkRat 3 10 then "execution-heavy"
      else "balanced" }

/-- Signal record of `detect_validation_pattern`. -/
structure ValidationSignal where
  test_runs : Nat
  code_checks : Nat
  reviews : Nat
  total_validation : Nat
  has_validation : Bool
  deriving DecidableEq, Repr

/-- `SessionAnalyzer.detect_validation_pattern` (lines 213-241): one tool
call can bump several of the three counters. -/
def detect_validation_pattern (messages : List Message) : ValidationSignal :=
  let calls := ((messages.filter (fun m => m.role == "assistant")).map
    (fun m => m.tool_calls)).flatten
  let tests := (calls.filter
    (fun c => strContains "test" (pyLower c.args) || strContains "test" (pyLower c.tool))).length
  let checks := (calls.filter (fun c => c.tool == "python_check")).length
  let reviews := (calls.filter
    (fun c => strContains "review" (pyLower c.args) || strContains "review" (pyLower c.tool))).length
  { test_runs := tests
    code_checks := checks
    reviews := reviews
    total_validation := tests + checks + reviews
    has_validation := decide (0 < tests + checks + reviews) }

/-- Round a rational to the nearest integer, ties to even (the rounding rule
of Python `round` applied to the exact value). -/
def round_half_even (q : ℚ) : ℤ :=
  let f := ⌊q⌋
  if qsub q (f : ℚ) < mkRat 1 2 then f
  else if mkRat 1 2 < qsub q (f : ℚ) then f + 1
  else if f % 2 = 0 then f else f + 1

/-- Python `round(x, 2)` on the exact rational value. -/
def round2 (q : ℚ) : ℚ := mkRat (round_half_even (qmul q 100)) 100

/-- Gregorian leap-year test. -/
def is_leap (y : Nat) : Bool := (y % 4 == 0 && y % 100 != 0) || y % 400 == 0

/-- Length of a month of the Gregorian calendar (`0` for an invalid month
number, which the parser rejects anyway). -/
def days_in_month (y m : Nat) : Nat :=
  match m with
  | 1 => 31 | 2 => if is_leap y then 29 else 28 | 3 => 31 | 4 => 30
  | 5 => 31 | 6 => 30 | 7 => 31 | 8 => 31 | 9 => 30 | 10 => 31
  | 11 => 30 | 12 => 31
  | _ => 0

/-- Days of the proleptic Gregorian calendar strictly before January 1 of
year `y` (the `datetime.date.toordinal` convention: 0001-01-01 is day 1). -/
def days_before_year (y : Nat) : Nat :=
  let n := y - 1
  n * 365 + n / 4 - n / 100 + n / 400

/-- Days of year `y` strictly before the first day of month `m`. -/
def days_before_month (y m : Nat) : Nat :=
  ((List.range (m - 1)).map (fun i => days_in_month y (i + 1))).sum

/-- `datetime.date(y, m, d).toordinal()`. -/
def to_ordinal (y m d : Nat) : Nat :=
  days_before_year y + days_before_month y m + d

/-- Parse a run of decimal digits into a number (`none` when empty or when a
non-digit occurs). -/
def parse_digits (cs : List Char) : Option Nat :=
  if cs.isEmpty || cs.any (fun c => !c.isDigit) then none
  else some (cs.foldl (fun n c => n * 10 + (c.toNat - '0'.toNat)) 0)

/-- Parse an `HH:MM:SS[.f…]` time-of-day part into seconds within the day
(a rational, carrying the fractional second exactly). -/
def parse_time : List Char → Option ℚ
  | h1 :: h2 :: ':' :: m1 :: m2 :: ':' :: s1 :: s2 :: rest => do
    let h ← parse_digits [h1, h2]
    let mi ← parse_digits [m1, m2]
    let s ← parse_digits [s1, s2]
    if h ≤ 23 ∧ mi ≤ 59 ∧ s ≤ 59 then
      match rest with
      | [] => some ((h * 3600 + mi * 60 + s : Nat) : ℚ)
      | '.' :: ds =>
        if ds.isEmpty || 6 < ds.length then none
        else do
          let f ← parse_digits ds
          some (qadd ((h * 3600 + mi * 60 + s : Nat) : ℚ) (mkRat (f : Int) (10 ^ ds.length)))
      | _ => none
    else none
  | _ => none

/-- Model of Python `datetime.fromisoformat` restricted to the naive
timestamps the analyzer feeds it after the `"+00:00"` replacement: the shapes
`YYYY-MM-DD` and `YYYY-MM-DD[T ]HH:MM:SS[.f…]`. The result is the timestamp
as seconds on one linear scale (days of `toordinal` times `86400` plus the
time of day), so differences of two results are exactly Python
`(b - a).total_seconds()`. Any other shape is a parse failure (`none`), which
the caller maps to the `0` fallback exactly like the `except` clause of the
source. -/
def fromisoformat (s : String) : Option ℚ :=
  match s.data with
  | y1 :: y2 :: y3 :: y4 :: '-' :: m1 :: m2 :: '-' :: d1 :: d2 :: rest => do
    let y ← parse_digits [y1, y2, y3, y4]
    let mo ← parse_digits [m1, m2]
    let d ← parse_digits [d1, d2]
    if 1 ≤ y ∧ 1 ≤ mo ∧ mo ≤ 12 ∧ 1 ≤ d ∧ d ≤ days_in_month y mo then
      match rest with
      | [] => some ((to_ordinal y mo d * 86400 : Nat) : ℚ)
      | sep :: time_part =>
        if sep == 'T' || sep == ' ' then do
          let t ← parse_time time_part
          some (qadd ((to_ordinal y mo d * 86400 : Nat) : ℚ) t)
        else none
    else none
  | _ => none

/-- Timestamp of the first message, `messages[0].get("timestamp", "")`. -/
def first_timestamp (messages : List Message) : String :=
  (messages.head?.map Message.timestamp).getD ""

/-- Timestamp of the last message, `messages[-1].get("timestamp", "")`. -/
def last_timestamp (messages : List Message) : String :=
  (messages.getLast?.map Message.timestamp).getD ""

/-- `SessionAnalyzer.calculate_session_duration` (lines 243-260): minutes
between first and last message timestamps, rounded to two decimals, with `0`
for fewer than two messages, an empty timestamp, or a parse failure. The
Python function never raises: the only fallible step sits inside
`try`/`except` whose handler falls through to `return 0`, modelled by the
`none` branches. -/
def calculate_session_duration (messages : List Message) : ℚ :=
  if messages.length < 2 then 0
  else
    let first_ts := first_timestamp messages
    let last_ts := last_timestamp messages
    if first_ts ≠ "" ∧ last_ts ≠ "" then
      match fromisoformat (py_replace first_ts "+00:00" ""),
            fromisoformat (py_replace last_ts "+00:00" "") with
      | some t1, some t2 => round2 (qdiv (qsub t2 t1) 60)
      | _, _ => 0
    else 0

/-- The seven signal records assembled as the `patterns` dictionary of
`SessionAnalyzer.analyze_session`. -/
structure Patterns where
  delegation : DelegationSignal
  iteration : IterationSignal
  exploration : ExplorationSignal
  implementation : ImplementationSignal
  error_recovery : ErrorRecoverySignal
  planning_execution : PlanningSignal
  validation : ValidationSignal
  deriving DecidableEq

/-- The `patterns` dictionary of one session. -/
def session_patterns (messages : List Message) : Patterns :=
  { delegation := detect_delegation_pattern messages
    iteration := detect_iteration_pattern messages
    exploration := detect_exploration_pattern messages
    implementation := detect_implementation_pattern messages
    error_recovery := detect_error_recovery messages
    planning_execution := detect_planning_vs_execution messages
    validation := detect_validation_pattern messages }

/-- `SessionAnalyzer.categorize_approach` (lines 262-290): the fixed-priority
label list, with `Direct Implementation` discounted by the iteration gate and
the `Simple/Conversational` fallback when nothing fired. -/
def categorize_approach (patterns : Patterns) : List String :=
  let approaches :=
    (if patterns.iteration.is_iterative then ["Iterative Refinement"] else []) ++
    (if patterns.exploration.is_exploratory then ["Exploratory Investigation"] else []) ++
    (if patterns.implementation.is_implementation && !patterns.iteration.is_iterative then
      ["Direct Implementation"] else []) ++
    (if patterns.delegation.has_delegation then ["Multi-Agent Orchestration"] else []) ++
    (if patterns.error_recovery.has_error_recovery then ["Error Recovery & Resilience"] else []) ++
    (if patterns.validation.has_validation then ["Validation-Driven"] else [])
  if approaches.isEmpty then ["Simple/Conversational"] else approaches

/-- Session metadata mapping: the keys `analyze_session` reads, each optional
(`none` models an absent key, turned into the `.get` default at use sites). -/
structure Metadata where
  session_id : Option String := none
  created : Option String := none
  name : Option String := none
  description : Option String := none
  bundle : Option String := none
  model : Option String := none
  turn_count : Option Int := none
  deriving DecidableEq, Repr

/-- The Session Record dictionary returned by `analyze_session`. -/
structure SessionRecord where
  session_id : String
  parent_session_id : String
  created : String
  name : String
  description : String
  bundle : String
  model : String
  turn_count : Int
  message_count : Nat
  duration_minutes : ℚ
  approaches : List String
  primary_approach : String
  patterns : Patterns
  success_indicators : List String
  project : String
  deriving DecidableEq

/-- `SessionAnalyzer.analyze_session` (lines 292-346). `metadata = none`
models a metadata file that failed to parse or parsed to an empty mapping
(both falsy in `if not metadata or not messages`); `session_dir_name` and
`metadata_path` are the two path-derived strings the function reads. -/
def analyze_session (metadata : Option Metadata) (session_dir_name metadata_path : String)
    (messages : List Message) : Option SessionRecord :=
  match metadata with
  | none => none
  | some md =>
    if messages.isEmpty then none
    else
      let patterns := session_patterns messages
      let duration := calculate_session_duration messages
      let approaches := categorize_approach patterns
      let success_indicators :=
        (if 0 < patterns.implementation.total_file_ops then ["Files Modified"] else []) ++
        (if mkRat 1 2 < patterns.error_recovery.recovery_rate then ["Good Error Recovery"] else []) ++
        (if patterns.validation.has_validation then ["Validated"] else []) ++
        (if 5 < md.turn_count.getD 0 then ["Substantial Work"] else [])
      some
        { session_id := md.session_id.getD ""
          parent_session_id :=
            if strContains "-" session_dir_name then
              (py_split session_dir_name "-").headD ""
            else ""
          created := md.created.getD ""
          name := md.name.getD "Untitled"
          description := py_take (md.description.getD "") 200
          bundle := md.bundle.getD ""
          model := md.model.getD ""
          turn_count := md.turn_count.getD 0
          message_count := messages.length
          duration_minutes := duration
          approaches := approaches
          primary_approach := approaches.headD "Unknown"
          patterns := patterns
          success_indicators := success_indicators
          project :=
            (py_split ((py_split metadata_path "/projects/").getLastD metadata_path)
              "/sessions/").headD "" }

/-- The `pattern_statistics` block of the corpus summary. -/
structure PatternStatistics where
  iterative_sessions : Nat
  exploratory_sessions : Nat
  implementation_sessions : Nat
  delegated_sessions : Nat
  validated_sessions : Nat
  error_recovery_sessions : Nat
  deriving DecidableEq, Repr

/-- The corpus summary dictionary of `generate_summary_statistics`. -/
structure SummaryStatistics where
  total_sessions : Nat
  approach_frequencies : List (String × Nat)
  average_turns : ℚ
  average_duration_minutes : ℚ
  pattern_statistics : PatternStatistics
  sessions_by_date : List (String × Nat)
  deriving DecidableEq, Repr

/-- Date bucket key of a session: `created[:10]`, or `"unknown"` when
`created` is empty (falsy). -/
def date_key (s : SessionRecord) : String :=
  if s.created ≠ "" then py_take s.created 10 else "unknown"

/-- `SessionAnalyzer.generate_summary_statistics` (lines 364-422). The two
`Counter`/`defaultdict` aggregates are association lists in key insertion
order; the date buckets are sorted by key as in the source. -/
def generate_summary_statistics (sessions : List SessionRecord) : SummaryStatistics :=
  let approach_counts :=
    sessions.foldl (fun acc s => s.approaches.foldl bump_count acc) []
  let avg_turns : ℚ :=
    if sessions.isEmpty then 0
    else (sessions.map (fun s => (s.turn_count : ℚ))).sum / (sessions.length : ℚ)
  let avg_duration : ℚ :=
    if sessions.isEmpty then 0
    else (sessions.map (fun s => s.duration_minutes)).sum / (sessions.length : ℚ)
  { total_sessions := sessions.length
    approach_frequencies := approach_counts
    average_turns := round2 avg_turns
    average_duration_minutes := round2 avg_duration
    pattern_statistics :=
      { iterative_sessions := sessions.countP (fun s => s.patterns.iteration.is_iterative)
        exploratory_sessions := sessions.countP (fun s => s.patterns.exploration.is_exploratory)
        implementation_sessions :=
          sessions.countP (fun s => s.patterns.implementation.is_implementation)
        delegated_sessions := sessions.countP (fun s => s.patterns.delegation.has_delegation)
        validated_sessions := sessions.countP (fun s => s.patterns.validation.has_validation)
        error_recovery_sessions :=
          sessions.countP (fun s => s.patterns.error_recovery.has_error_recovery) }
    sessions_by_date :=
      (sessions.foldl (fun acc s => bump_count acc (date_key s)) []).mergeSort
        (fun a b => a.1 ≤ b.1) }

/-- The primary-approach distribution built for the `Primary Approach` sheet
of `create_dashboard.py` (lines 109-113): its `Counter` value at `label` is
the number of sessions whose (truthy, i.e. non-empty) primary label equals
`label`. -/
def primary_counter (sessions : List SessionRecord) (label : String) : Nat :=
  sessions.countP (fun s => !(s.primary_approach == "") && s.primary_approach == label)

/-! Helper lemmas about the classifier output. -/

lemma categorize_approach_ne_nil (p : Patterns) : categorize_approach p ≠ [] := by
  simp only [categorize_approach]
  split_ifs <;> simp_all

lemma categorize_approach_nodup (p : Patterns) : (categorize_approach p).Nodup := by
  simp only [categorize_approach]
  split_ifs <;> decide

lemma categorize_approach_mem_ne_empty (p : Patterns) :
    ∀ x ∈ categorize_approach p, x ≠ "" := by
  simp only [categorize_approach]
  split_ifs <;> decide

lemma categorize_approach_headD_ne_empty (p : Patterns) :
    (categorize_approach p).headD "Unknown" ≠ "" := by
  simp only [categorize_approach]
  split_ifs <;> decide

/-- Inversion of a successful `analyze_session`: the record's label fields
come from `categorize_approach` over the seven detector signals. -/
lemma analyze_session_some {metadata : Option Metadata} {dn mp : String}
    {messages : List Message} {rec : SessionRecord}
    (h : analyze_session metadata dn mp messages = some rec) :
    rec.approaches = categorize_approach (session_patterns messages) ∧
    rec.primary_approach = (categorize_approach (session_patterns messages)).headD "Unknown" := by
  cases metadata with
  | none => simp [analyze_session] at h
  | some md =>
    simp only [analyze_session] at h
    split at h
    · exact absurd h (by simp)
    · injection h with h2
      subst h2
      exact ⟨rfl, rfl⟩

/-- A one-message session with empty metadata, used to instantiate the
universally quantified claim theorems at a concrete input. -/
def sample_messages : List Message := [{ role := "user" }]

/-- The session record `analyze_session (some {}) "dir" "path"
sample_messages` evaluates to. -/
def sample_record : SessionRecord :=
  { session_id := ""
    parent_session_id := ""
    created := ""
    name := "Untitled"
    description := ""
    bundle := ""
    model := ""
    turn_count := 0
    message_count := 1
    duration_minutes := 0
    approaches := ["Simple/Conversational"]
    primary_approach := "Simple/Conversational"
    patterns :=
      { delegation := { delegation_count := 0, agents_used := ∅, has_delegation := false }
        iteration := { iteration_count := 0, is_iterative := false }
        exploration :=
          { exploration_tool_count := 0, parallel_searches := 0, is_exploratory := false
            tools_used := [] }
        implementation :=
          { write_operations := 0, edit_operations := 0, total_file_ops := 0
            is_implementation := false }
        error_recovery :=
          { errors_encountered := 0, recovery_attempts := 0, has_error_recovery := false
            recovery_rate := 0 }
        planning_execution :=
          { planning_messages := 0, execution_messages := 0, planning_ratio := 0
            approach := "execution-heavy" }
        validation :=
          { test_runs := 0, code_checks := 0, reviews := 0, total_validation := 0
            has_validation := false } }
    success_indicators := []
    project := "path" }

/-- C1: every session record produced by the analyzer has a non-empty
`approaches` list — when no detector gate fires the classifier falls back to
the single label `"Simple/Conversational"` — and `primary_approach` is the
first element of `approaches`. -/
theorem spec_C1_approaches_nonempty_primary_first
    (metadata : Option Metadata) (session_dir_name metadata_path : String)
    (messages : List Message) (rec : SessionRecord)
    (h : analyze_session metadata session_dir_name metadata_path messages = some rec) :
    rec.approaches ≠ [] ∧ rec.approaches.head? = some rec.primary_approach ∧
      (∀ p : Patterns, p.iteration.is_iterative = false →
        p.exploration.is_exploratory = false → p.implementation.is_implementation = false →
        p.delegation.has_delegation = false → p.error_recovery.has_error_recovery = false →
        p.validation.has_validation = false →
        categorize_approach p = ["Simple/Conversational"]) := by
  obtain ⟨h1, h2⟩ := analyze_session_some h
  refine ⟨?_, ?_, ?_⟩
  · rw [h1]
    exact categorize_approach_ne_nil _
  · rw [h1, h2]
    rcases hc : categorize_approach (session_patterns messages) with _ | ⟨a, t⟩
    · exact absurd hc (categorize_approach_ne_nil _)
    · simp
  · intro p hi he himp hd herr hv
    simp [categorize_approach, hi, he, himp, hd, herr, hv]

/-- Witness for C1 at a concrete session. -/
theorem spec_C1_witness :
    sample_record.approaches ≠ [] ∧
      sample_record.approaches.head? = some sample_record.primary_approach := by
  have h := spec_C1_approaches_nonempty_primary_first (some {}) "dir" "path"
    sample_messages sample_record (by decide)
  exact ⟨h.1, h.2.1⟩

/-- C2: whenever the iteration gate is true for a session's messages, the
label `"Direct Implementation"` is absent from the classifier output, even
when the implementation gate is true. -/
theorem spec_C2_no_direct_implementation (messages : List Message)
    (h : (detect_iteration_pattern messages).is_iterative = true) :
    "Direct Implementation" ∉ categorize_approach (session_patterns messages) := by
  have hi : (session_patterns messages).iteration.is_iterative = true := h
  simp only [categorize_approach, hi]
  split_ifs <;> simp_all

/-- A concrete session whose iteration gate and implementation gate are both
true: two user refinement requests and three `write_file` calls. -/
def iter_messages : List Message :=
  [{ role := "user", content := .str "fix this" },
   { role := "user", content := .str "fix that" },
   { role := "assistant",
     tool_calls := [{ tool := "write_file" }, { tool := "write_file" }, { tool := "write_file" }] }]

/-- Witness for C2: the implementation gate is true for `iter_messages`, yet
`"Direct Implementation"` is not among its labels. -/
theorem spec_C2_witness :
    "Direct Implementation" ∉ categorize_approach (session_patterns iter_messages) ∧
      (session_patterns iter_messages).implementation.is_implementation = true :=
  ⟨spec_C2_no_direct_implementation iter_messages (by decide), by decide⟩

/-- Each error contributes at most one recovery attempt, so the attempt count
never exceeds the error count. -/
lemma error_scan_attempts_le (messages : List Message) :
    (error_scan messages).2 ≤ (error_scan messages).1 := by
  induction messages with
  | nil => simp [error_scan]
  | cons m rest ih =>
    simp only [error_scan]
    split
    · have h1 : next_assistant rest ≤ 1 := by
        cases rest with
        | nil => simp [next_assistant]
        | cons n t =>
          simp only [next_assistant]
          split <;> omega
      omega
    · exact ih

/-- C3 (amended): the recovery rate always lies in `[0, 1]`, and it is `0`
exactly when the recovery-attempt count is `0` — in particular whenever the
error count is `0`, but also for sessions whose errors are all unrecovered. -/
theorem spec_C3_recovery_rate (messages : List Message) :
    0 ≤ (detect_error_recovery messages).recovery_rate ∧
      (detect_error_recovery messages).recovery_rate ≤ 1 ∧
      ((detect_error_recovery messages).recovery_rate = 0 ↔
        (detect_error_recovery messages).recovery_attempts = 0) := by
  have hle := error_scan_attempts_le messages
  by_cases hpos : 0 < (error_scan messages).1
  · simp only [detect_error_recovery, if_pos hpos, mkRat_eq_div]
    have he : (0 : ℚ) < ((error_scan messages).1 : ℚ) := by exact_mod_cast hpos
    refine ⟨div_nonneg (by positivity) he.le, ?_, ?_⟩
    · rw [div_le_one he]
      exact_mod_cast hle
    · rw [div_eq_zero_iff]
      constructor
      · rintro (h | h)
        · exact_mod_cast h
        · exact absurd h (ne_of_gt he)
      · intro h
        left
        exact_mod_cast h
  · simp only [detect_error_recovery, if_neg hpos]
    refine ⟨le_refl 0, by norm_num, ?_⟩
    constructor
    · intro _
      omega
    · intro _
      trivial

/-- Counterexample to C3 as stated: one unanswered tool error gives
`errors_encountered = 1` with `recovery_rate = 0`, so the rate is `0` at a
session whose error count is not `0`. -/
theorem spec_C3_counterexample :
    (detect_error_recovery [{ role := "tool", content := .str "error" }]).errors_encountered
        = 1 ∧
      (detect_error_recovery [{ role := "tool", content := .str "error" }]).recovery_rate
        = 0 := by
  decide

/-- The error-then-recovery scenario of the specification. -/
def recovery_messages : List Message :=
  [{ role := "tool", content := .str "Error: failed" }, { role := "assistant" }]

/-- Witness for C3 at a concrete session with one recovered error. -/
theorem spec_C3_witness :
    0 ≤ (detect_error_recovery recovery_messages).recovery_rate ∧
      (detect_error_recovery recovery_messages).recovery_rate ≤ 1 ∧
      ((detect_error_recovery recovery_messages).recovery_rate = 0 ↔
        (detect_error_recovery recovery_messages).recovery_attempts = 0) :=
  spec_C3_recovery_rate recovery_messages

/-- Characterization of the delegation fold: the running count splits into
the user-message matches plus the matching assistant tool calls, and the
collected agent names are the successful regex extractions of the matching
user messages, in order. -/
lemma delegation_foldl (messages : List Message) (c : Nat) (l : List String) :
    (messages.foldl delegation_step (c, l)).1 =
      c + (messages.filter user_delegation_match).length +
        (messages.map assistant_delegation_calls).sum ∧
    (messages.foldl delegation_step (c, l)).2 =
      l ++ messages.filterMap
        (fun m => if user_delegation_match m then extracted_agent m else none) := by
  induction messages generalizing c l with
  | nil => simp
  | cons m rest ih =>
    by_cases hm : user_delegation_match m
    · cases hx : extracted_agent m with
      | some a =>
        have hstep : delegation_step (c, l) m = (c + 1 + assistant_delegation_calls m, l ++ [a]) := by
          simp [delegation_step, hm, hx]
        rw [List.foldl_cons, hstep]
        obtain ⟨ih1, ih2⟩ := ih (c + 1 + assistant_delegation_calls m) (l ++ [a])
        constructor
        · rw [ih1]
          simp only [List.filter_cons, hm, if_true, List.length_cons, List.map_cons,
            List.sum_cons]
          omega
        · rw [ih2]
          simp [List.filterMap_cons, hm, hx]
      | none =>
        have hstep : delegation_step (c, l) m = (c + 1 + assistant_delegation_calls m, l) := by
          simp [delegation_step, hm, hx]
        rw [List.foldl_cons, hstep]
        obtain ⟨ih1, ih2⟩ := ih (c + 1 + assistant_delegation_calls m) l
        constructor
        · rw [ih1]
          simp only [List.filter_cons, hm, if_true, List.length_cons, List.map_cons,
            List.sum_cons]
          omega
        · rw [ih2]
          simp [List.filterMap_cons, hm, hx]
    · have hstep : delegation_step (c, l) m = (c + assistant_delegation_calls m, l) := by
        simp [delegation_step, hm]
      rw [List.foldl_cons, hstep]
      obtain ⟨ih1, ih2⟩ := ih (c + assistant_delegation_calls m) l
      constructor
      · rw [ih1]
        simp only [List.filter_cons, hm, if_false, List.map_cons, List.sum_cons,
          Bool.false_eq_true, List.length_cons]
        omega
      · rw [ih2]
        simp [List.filterMap_cons, hm]

/-- C5 (amended): the delegation count is one per user message whose
lowercased string content contains both `"use "` — with a trailing space, as
in the source literal — and `"agent"`, plus one per assistant tool call whose
tool name contains `"agent"` or `"delegate"`; the agent-name set collects the
regex extractions of the matching user messages; the gate holds exactly when
the count is positive. -/
theorem spec_C5_delegation_count (messages : List Message) :
    (detect_delegation_pattern messages).delegation_count =
        (messages.filter user_delegation_match).length +
          (messages.map assistant_delegation_calls).sum ∧
      (detect_delegation_pattern messages).agents_used =
        (messages.filterMap
          (fun m => if user_delegation_match m then extracted_agent m else none)).toFinset ∧
      ((detect_delegation_pattern messages).has_delegation = true ↔
        0 < (detect_delegation_pattern messages).delegation_count) := by
  obtain ⟨h1, h2⟩ := delegation_foldl messages 0 []
  refine ⟨?_, ?_, ?_⟩
  · simpa using h1
  · simp only [detect_delegation_pattern]
    rw [h2]
    simp
  · simp only [detect_delegation_pattern]
    simp

/-- A user message that contains `"use"` and `"agent"` but not `"use "` with
a trailing space. -/
def c5_messages : List Message := [{ role := "user", content := .str "usefulness agent" }]

/-- Counterexample to C5 as stated: the text `"usefulness agent"` contains
both `"use"` and `"agent"` case-insensitively, yet the detector counts `0`
and its gate is false, because the source matches `"use "` with a trailing
space. -/
theorem spec_C5_counterexample :
    strContains "use" (pyLower "usefulness agent") = true ∧
      strContains "agent" (pyLower "usefulness agent") = true ∧
      (detect_delegation_pattern c5_messages).delegation_count = 0 ∧
      (detect_delegation_pattern c5_messages).has_delegation = false := by
  decide

/-- A session with one matching user message and one matching tool call. -/
def c5w_messages : List Message :=
  [{ role := "user", content := .str "Please use the planner agent" },
   { role := "assistant", tool_calls := [{ tool := "task_agent" }] }]

/-- Witness for C5 at a concrete two-message session. -/
theorem spec_C5_witness :
    (detect_delegation_pattern c5w_messages).delegation_count =
        (c5w_messages.filter user_delegation_match).length +
          (c5w_messages.map assistant_delegation_calls).sum ∧
      (detect_delegation_pattern c5w_messages).agents_used =
        (c5w_messages.filterMap
          (fun m => if user_delegation_match m then extracted_agent m else none)).toFinset ∧
      ((detect_delegation_pattern c5w_messages).has_delegation = true ↔
        0 < (detect_delegation_pattern c5w_messages).delegation_count) :=
  spec_C5_delegation_count c5w_messages

/-- Claim-side count: assistant tool calls whose tool name is one of the
exploration tools. -/
def exploration_call_count (messages : List Message) : Nat :=
  ((messages.filter (fun m => m.role == "assistant")).map
    (fun m => (m.tool_calls.filter (fun c => exploration_tools.contains c.tool)).length)).sum

/-- Claim-side count: assistant messages issuing more than one tool call. -/
def multi_call_message_count (messages : List Message) : Nat :=
  (messages.filter (fun m => m.role == "assistant" && decide (1 < m.tool_calls.length))).length

/-- Bumping a counter raises the sum of its values by one. -/
lemma bump_count_values_sum (l : List (String × Nat)) (t : String) :
    ((bump_count l t).map (fun kv => kv.2)).sum = ((l.map (fun kv => kv.2)).sum) + 1 := by
  induction l with
  | nil => simp [bump_count]
  | cons kv rest ih =>
    obtain ⟨k, v⟩ := kv
    simp only [bump_count]
    split
    · simp only [List.map_cons, List.sum_cons]
      omega
    · simp only [List.map_cons, List.sum_cons, ih]
      omega

/-- The per-message histogram fold adds one value per matching tool call. -/
lemma exploration_calls_fold (calls : List ToolCall) (h : List (String × Nat)) :
    (((calls.foldl
          (fun acc c => if exploration_tools.contains c.tool then bump_count acc c.tool else acc)
          h)).map (fun kv => kv.2)).sum =
      ((h.map (fun kv => kv.2)).sum) +
        (calls.filter (fun c => exploration_tools.contains c.tool)).length := by
  induction calls generalizing h with
  | nil => simp
  | cons c rest ih =>
    simp only [List.foldl_cons, List.filter_cons]
    by_cases hc : c.tool ∈ exploration_tools
    · have hb : (exploration_tools.contains c.tool) = true := by simpa using hc
      rw [if_pos hb, ih, bump_count_values_sum]
      simp [hc]
      omega
    · have hb : ¬ (exploration_tools.contains c.tool) = true := by simpa using hc
      rw [if_neg hb, ih]
      simp [hc]

/-- Characterization of the exploration fold: the histogram values sum to the
exploration-tool call count, and the second component counts the assistant
messages with more than one tool call. -/
lemma exploration_foldl (messages : List Message) (h : List (String × Nat)) (p : Nat) :
    (((messages.foldl exploration_step (h, p)).1.map (fun kv => kv.2)).sum =
        ((h.map (fun kv => kv.2)).sum) + exploration_call_count messages) ∧
      (messages.foldl exploration_step (h, p)).2 = p + multi_call_message_count messages := by
  induction messages generalizing h p with
  | nil => simp [exploration_call_count, multi_call_message_count]
  | cons m rest ih =>
    by_cases hr : (m.role == "assistant") = true
    · by_cases hp : 1 < m.tool_calls.length
      · have hstep : exploration_step (h, p) m =
            (m.tool_calls.foldl
              (fun acc c =>
                if exploration_tools.contains c.tool then bump_count acc c.tool else acc) h,
             p + 1) := by
          simp [exploration_step, hr, hp]
        rw [List.foldl_cons, hstep]
        obtain ⟨ih1, ih2⟩ := ih _ (p + 1)
        constructor
        · rw [ih1, exploration_calls_fold]
          simp only [exploration_call_count, List.filter_cons, hr, if_pos, List.map_cons,
            List.sum_cons]
          omega
        · rw [ih2]
          have hd : (m.role == "assistant" && decide (1 < m.tool_calls.length)) = true := by
            simp [hr, hp]
          simp only [multi_call_message_count, List.filter_cons, hd, if_pos, List.length_cons]
          omega
      · have hstep : exploration_step (h, p) m =
            (m.tool_calls.foldl
              (fun acc c =>
                if exploration_tools.contains c.tool then bump_count acc c.tool else acc) h,
             p) := by
          simp [exploration_step, hr, hp]
        rw [List.foldl_cons, hstep]
        obtain ⟨ih1, ih2⟩ := ih _ p
        constructor
        · rw [ih1, exploration_calls_fold]
          simp only [exploration_call_count, List.filter_cons, hr, if_pos, List.map_cons,
            List.sum_cons]
          omega
        · rw [ih2]
          have hd : ¬ (m.role == "assistant" && decide (1 < m.tool_calls.length)) = true := by
            simp [hr, hp]
          simp only [multi_call_message_count, List.filter_cons, hd, if_neg]
          simp [hp]
    · have hstep : exploration_step (h, p) m = (h, p) := by
        simp [exploration_step, hr]
      rw [List.foldl_cons, hstep]
      obtain ⟨ih1, ih2⟩ := ih h p
      have hb : (m.role == "assistant") = false := by simpa using hr
      constructor
      · rw [ih1]
        simp only [exploration_call_count, List.filter_cons, hb]
        simp
      · rw [ih2]
        simp only [multi_call_message_count, List.filter_cons, hb, Bool.false_and]
        simp

/-- The specification scenario: six assistant turns, one `read_file` each. -/
def six_reads : List Message :=
  List.replicate 6 { role := "assistant", tool_calls := [{ tool := "read_file" }] }

/-- C6: the exploration gate holds exactly when the exploration-tool call
count reaches 5 or at least two assistant messages issue more than one tool
call; in particular, six single-`read_file` assistant turns trip the gate
with a parallel-search count of `0`. -/
theorem spec_C6_exploration_gate :
    (∀ messages : List Message,
      ((detect_exploration_pattern messages).is_exploratory = true ↔
        5 ≤ exploration_call_count messages ∨ 2 ≤ multi_call_message_count messages)) ∧
      (detect_exploration_pattern six_reads).is_exploratory = true ∧
      (detect_exploration_pattern six_reads).parallel_searches = 0 := by
  refine ⟨?_, by decide, by decide⟩
  intro messages
  obtain ⟨h1, h2⟩ := exploration_foldl messages [] 0
  simp only [List.map_nil, List.sum_nil, Nat.zero_add] at h1 h2
  simp only [detect_exploration_pattern]
  rw [h1, h2]
  simp

/-- Witness for C6: the gate equivalence instantiated at the six-read
session. -/
theorem spec_C6_witness :
    (detect_exploration_pattern six_reads).is_exploratory = true ↔
      5 ≤ exploration_call_count six_reads ∨ 2 ≤ multi_call_message_count six_reads :=
  spec_C6_exploration_gate.1 six_reads

/-- C9: the delegation detector matches tool names case-sensitively — any
tool name containing neither `"agent"` nor `"delegate"` verbatim contributes
nothing, so the name `"Agent"` is not counted even though its lowercasing
contains `"agent"` — while user-message text is lowercased before its
substring test, so `"Use the AGENT"` is counted. -/
theorem spec_C9_case_sensitive_tool_match :
    (∀ name : String, strContains "agent" name = false → strContains "delegate" name = false →
      (detect_delegation_pattern
        [{ role := "assistant", tool_calls := [{ tool := name }] }]).delegation_count = 0) ∧
      strContains "agent" (pyLower "Agent") = true ∧
      (detect_delegation_pattern
        [{ role := "user", content := .str "Use the AGENT" }]).delegation_count = 1 := by
  refine ⟨?_, by decide, by decide⟩
  intro name h1 h2
  have hu : user_delegation_match { role := "assistant", tool_calls := [{ tool := name }] } =
      false := rfl
  simp [detect_delegation_pattern, delegation_step, hu, assistant_delegation_calls, h1, h2]

/-- Witness for C9 at the concrete tool name `"Agent"`. -/
theorem spec_C9_witness :
    (detect_delegation_pattern
      [{ role := "assistant", tool_calls := [{ tool := "Agent" }] }]).delegation_count = 0 :=
  spec_C9_case_sensitive_tool_match.1 "Agent" (by decide) (by decide)

/-- The empty string never parses as a timestamp. -/
lemma fromisoformat_empty : fromisoformat (py_replace "" "+00:00" "") = none := rfl

/-- When both endpoint timestamps parse (after the `"+00:00"` replacement),
the duration is the rounded minute difference. -/
lemma calculate_session_duration_eq (messages : List Message) (t1 t2 : ℚ)
    (h2 : 2 ≤ messages.length)
    (hf : fromisoformat (py_replace (first_timestamp messages) "+00:00" "") = some t1)
    (hl : fromisoformat (py_replace (last_timestamp messages) "+00:00" "") = some t2) :
    calculate_session_duration messages = round2 ((t2 - t1) / 60) := by
  have hne1 : first_timestamp messages ≠ "" := by
    intro he
    rw [he, fromisoformat_empty] at hf
    exact Option.noConfusion hf
  have hne2 : last_timestamp messages ≠ "" := by
    intro he
    rw [he, fromisoformat_empty] at hl
    exact Option.noConfusion hl
  have hlen : ¬ messages.length < 2 := by omega
  simp only [calculate_session_duration, if_neg hlen]
  rw [if_pos ⟨hne1, hne2⟩, hf, hl]
  show round2 (qdiv (qsub t2 t1) 60) = round2 ((t2 - t1) / 60)
  rw [qsub_eq, qdiv_eq]

/-- C7: the session duration is the rounded difference of the parsed first
and last timestamps in minutes — parsing after replacing the literal
`"+00:00"` — and is `0` whenever the session has fewer than two messages, an
endpoint timestamp is empty, or either timestamp fails to parse; every
failure path yields `0` rather than an exception (`calculate_session_duration`
is total by construction, mirroring the `try`/`except` fallback). -/
theorem spec_C7_duration_fallbacks (messages : List Message) :
    (messages.length < 2 → calculate_session_duration messages = 0) ∧
      ((first_timestamp messages = "" ∨ last_timestamp messages = "") →
        calculate_session_duration messages = 0) ∧
      ((fromisoformat (py_replace (first_timestamp messages) "+00:00" "") = none ∨
          fromisoformat (py_replace (last_timestamp messages) "+00:00" "") = none) →
        calculate_session_duration messages = 0) ∧
      (∀ t1 t2 : ℚ, 2 ≤ messages.length →
        fromisoformat (py_replace (first_timestamp messages) "+00:00" "") = some t1 →
        fromisoformat (py_replace (last_timestamp messages) "+00:00" "") = some t2 →
        calculate_session_duration messages = round2 ((t2 - t1) / 60)) := by
  refine ⟨?_, ?_, ?_, ?_⟩
  · intro h
    simp [calculate_session_duration, h]
  · intro h
    by_cases hlen : messages.length < 2
    · simp [calculate_session_duration, hlen]
    · simp only [calculate_session_duration, if_neg hlen]
      rw [if_neg]
      rcases h with h | h <;> simp [h]
  · intro h
    by_cases hlen : messages.length < 2
    · simp [calculate_session_duration, hlen]
    · simp only [calculate_session_duration, if_neg hlen]
      by_cases hne : first_timestamp messages ≠ "" ∧ last_timestamp messages ≠ ""
      · rw [if_pos hne]
        rcases h with h | h
        · rw [h]
        · rw [h]
          cases fromisoformat (py_replace (first_timestamp messages) "+00:00" "") <;> rfl
      · rw [if_neg hne]
  · intro t1 t2 h2 hf hl
    exact calculate_session_duration_eq messages t1 t2 h2 hf hl

/-- A two-message session whose timestamps carry the `"+00:00"` suffix the
analyzer strips; the values below are `toordinal(2024, 1, 2) * 86400` plus
the respective times of day. -/
def c7_messages : List Message :=
  [{ role := "user", timestamp := "2024-01-02T03:04:05+00:00" },
   { role := "assistant", timestamp := "2024-01-02T03:06:05+00:00" }]

/-- Witness for C7: the success conjunct applied at a concrete session. -/
theorem spec_C7_witness :
    calculate_session_duration c7_messages = round2 (((63839847965 : ℚ) - 63839847845) / 60) :=
  (spec_C7_duration_fallbacks c7_messages).2.2.2 63839847845 63839847965
    (by decide) (by decide) (by decide)

/-- Ties-to-even rounding never exceeds the floor by more than one. -/
lemma round_half_even_le_floor_add_one (q : ℚ) : round_half_even q ≤ ⌊q⌋ + 1 := by
  simp only [round_half_even]
  split_ifs <;> omega

/-- Rounding a negative rational to the nearest integer gives a non-positive
integer. -/
lemma round_half_even_nonpos (q : ℚ) (h : q < 0) : round_half_even q ≤ 0 := by
  have hf : ⌊q⌋ ≤ -1 := by
    have h0 : ⌊q⌋ < 0 := Int.floor_lt.2 (by exact_mod_cast h)
    omega
  simp only [round_half_even]
  split_ifs <;> omega

/-- `round(x, 2)` of a negative rational is non-positive. -/
lemma round2_nonpos (q : ℚ) (h : q < 0) : round2 q ≤ 0 := by
  rw [round2, mkRat_eq_div]
  apply div_nonpos_of_nonpos_of_nonneg _ (by norm_num)
  have hm : qmul q 100 < 0 := by
    rw [qmul_eq]
    nlinarith
  exact_mod_cast round_half_even_nonpos _ hm

/-- C10 (amended): when both timestamps parse and the last strictly precedes
the first, the duration is non-positive (never clamped up to `0` from a
genuinely negative difference), and it is strictly negative whenever the gap
is at least one second; a sub-second gap can round to exactly `0` at two
decimals, so the result is not strictly negative for every such session. -/
theorem spec_C10_negative_duration (messages : List Message) (t1 t2 : ℚ)
    (h2 : 2 ≤ messages.length)
    (hf : fromisoformat (py_replace (first_timestamp messages) "+00:00" "") = some t1)
    (hl : fromisoformat (py_replace (last_timestamp messages) "+00:00" "") = some t2)
    (hlt : t2 < t1) :
    calculate_session_duration messages ≤ 0 ∧
      (t2 + 1 ≤ t1 → calculate_session_duration messages < 0) := by
  have hdur := calculate_session_duration_eq messages t1 t2 h2 hf hl
  rw [hdur]
  have hq : (t2 - t1) / 60 < 0 := div_neg_of_neg_of_pos (by linarith) (by norm_num)
  refine ⟨round2_nonpos _ hq, ?_⟩
  intro h1
  rw [round2, mkRat_eq_div]
  have hqm : qmul ((t2 - t1) / 60) 100 ≤ -5/3 := by
    rw [qmul_eq]
    have hd : t2 - t1 ≤ -1 := by linarith
    have hrw : (t2 - t1) / 60 * 100 = (t2 - t1) * (5 / 3) := by ring
    rw [hrw]
    linarith
  have h53 : ⌊(-5/3 : ℚ)⌋ = -2 := by
    have : (-5/3 : ℚ) = mkRat (-5) 3 := by
      rw [mkRat_eq_div]
      norm_num
    rw [this]
    decide
  have hfl : ⌊qmul ((t2 - t1) / 60) 100⌋ ≤ -2 := by
    have := Int.floor_le_floor hqm
    omega
  have hr : round_half_even (qmul ((t2 - t1) / 60) 100) ≤ -1 :=
    le_trans (round_half_even_le_floor_add_one _) (by omega)
  have hrq : ((round_half_even (qmul ((t2 - t1) / 60) 100) : ℤ) : ℚ) ≤ -1 := by
    exact_mod_cast hr
  have : ((round_half_even (qmul ((t2 - t1) / 60) 100) : ℤ) : ℚ) < 0 :=
    lt_of_le_of_lt hrq (by norm_num)
  exact div_neg_of_neg_of_pos this (by norm_num)

/-- A session whose last timestamp precedes the first by a tenth of a
second. -/
def c10_messages : List Message :=
  [{ role := "user", timestamp := "2024-01-01T00:00:00.1" },
   { role := "assistant", timestamp := "2024-01-01T00:00:00" }]

/-- Counterexample to C10 as stated: with the last timestamp 0.1 s before the
first — both parsing — the rounded duration is `0`, not a strictly negative
value. -/
theorem spec_C10_counterexample :
    (fromisoformat (py_replace (first_timestamp c10_messages) "+00:00" "")).isSome = true ∧
      (fromisoformat (py_replace (last_timestamp c10_messages) "+00:00" "")).isSome = true ∧
      (fromisoformat (py_replace (last_timestamp c10_messages) "+00:00" "")).getD 0 <
        (fromisoformat (py_replace (first_timestamp c10_messages) "+00:00" "")).getD 0 ∧
      2 ≤ c10_messages.length ∧
      ¬ calculate_session_duration c10_messages < 0 := by
  decide

/-- A session whose last timestamp precedes the first by two minutes. -/
def c10w_messages : List Message :=
  [{ role := "user", timestamp := "2024-01-01T00:02:00" },
   { role := "assistant", timestamp := "2024-01-01T00:00:00" }]

/-- Witness for C10 at a concrete two-minute-backwards session. -/
theorem spec_C10_witness :
    calculate_session_duration c10w_messages ≤ 0 ∧
      calculate_session_duration c10w_messages < 0 := by
  have h := spec_C10_negative_duration c10w_messages 63839750520 63839750400
    (by decide) (by decide) (by decide) (by decide)
  exact ⟨h.1, h.2 (by norm_num)⟩

/-- The primary label of every analyzer-produced record is non-empty (it is
one of the seven classifier labels). -/
lemma analyze_session_primary_ne_empty {metadata : Option Metadata} {dn mp : String}
    {messages : List Message} {rec : SessionRecord}
    (h : analyze_session metadata dn mp messages = some rec) :
    rec.primary_approach ≠ "" := by
  obtain ⟨-, h2⟩ := analyze_session_some h
  rw [h2]
  exact categorize_approach_headD_ne_empty _

/-- Summing the multiplicities of the distinct members of a list recovers its
length. -/
lemma list_toFinset_sum_count (l : List String) :
    ∑ a ∈ l.toFinset, l.count a = l.length := by
  simp

/-- C4: over analyzer-produced session records, the primary-approach
distribution of the dashboard counts each session exactly once — at its
single primary label — and the per-label counts sum to the total number of
valid sessions. -/
theorem spec_C4_primary_distribution (sessions : List SessionRecord)
    (h : ∀ s ∈ sessions, ∃ (metadata : Option Metadata) (dn mp : String)
      (messages : List Message), analyze_session metadata dn mp messages = some s) :
    (∀ label, primary_counter sessions label =
      (sessions.map (fun s => s.primary_approach)).count label) ∧
      ∑ label ∈ (sessions.map (fun s => s.primary_approach)).toFinset,
        primary_counter sessions label = sessions.length := by
  have hne : ∀ s ∈ sessions, s.primary_approach ≠ "" := by
    intro s hs
    obtain ⟨md, dn, mp, msgs, heq⟩ := h s hs
    exact analyze_session_primary_ne_empty heq
  have hcount : ∀ label, primary_counter sessions label =
      (sessions.map (fun s => s.primary_approach)).count label := by
    intro label
    have h1 : primary_counter sessions label =
        sessions.countP (fun s => s.primary_approach == label) := by
      apply List.countP_congr
      intro s hs
      simp [primary_counter, hne s hs]
    rw [h1, List.count_eq_countP, List.countP_map]
    rfl
  refine ⟨hcount, ?_⟩
  calc ∑ label ∈ (sessions.map (fun s => s.primary_approach)).toFinset,
        primary_counter sessions label
      = ∑ label ∈ (sessions.map (fun s => s.primary_approach)).toFinset,
          (sessions.map (fun s => s.primary_approach)).count label :=
        Finset.sum_congr rfl (fun x _ => hcount x)
    _ = (sessions.map (fun s => s.primary_approach)).length :=
        list_toFinset_sum_count _
    _ = sessions.length := by simp

/-- Witness for C4 at the one-session corpus. -/
theorem spec_C4_witness :
    primary_counter [sample_record] "Simple/Conversational" =
      ([sample_record].map (fun s => s.primary_approach)).count "Simple/Conversational" :=
  (spec_C4_primary_distribution [sample_record] (by
    intro s hs
    rw [List.mem_singleton] at hs
    subst hs
    exact ⟨some {}, "dir", "path", sample_messages, by decide⟩)).1 "Simple/Conversational"

/-- Reading a counter after one bump. -/
lemma counter_get_cons (k1 : String) (v1 : Nat) (rest : List (String × Nat)) (k : String) :
    counter_get ((k1, v1) :: rest) k = if k1 == k then v1 else counter_get rest k := by
  cases h : (k1 == k) <;> simp [counter_get, List.find?_cons, h]

/-- Bumping key `t` raises the count read at `t` by one and leaves the other
keys unchanged. -/
lemma counter_get_bump (l : List (String × Nat)) (t k : String) :
    counter_get (bump_count l t) k = counter_get l k + (if t = k then 1 else 0) := by
  induction l with
  | nil =>
    by_cases h : t = k <;> simp [bump_count, counter_get_cons, counter_get, h]
  | cons kv rest ih =>
    obtain ⟨k1, v1⟩ := kv
    simp only [bump_count]
    by_cases h1 : (k1 == t) = true
    · have h1' : k1 = t := by simpa using h1
      subst h1'
      rw [if_pos h1]
      by_cases h : k1 = k
      · subst h
        simp [counter_get_cons]
      · have hb : (k1 == k) = false := by simpa using h
        simp [counter_get_cons, hb, h]
    · rw [if_neg h1]
      rw [counter_get_cons, counter_get_cons, ih]
      by_cases hb : (k1 == k) = true
      · have hk : k1 = k := by simpa using hb
        subst hk
        have ht : ¬ t = k1 := by
          intro he
          exact h1 (by simp [he])
        simp [hb, ht]
      · have hbf : (k1 == k) = false := by simpa using hb
        simp [hbf]

/-- Folding a label list into a counter adds each label's multiplicity. -/
lemma counter_get_fold_labels (labels : List String) (acc : List (String × Nat)) (k : String) :
    counter_get (labels.foldl bump_count acc) k = counter_get acc k + labels.count k := by
  induction labels generalizing acc with
  | nil => simp [counter_get]
  | cons a rest ih =>
    rw [List.foldl_cons, ih, counter_get_bump]
    by_cases h : a = k
    · subst h
      simp [List.count_cons]
      omega
    · have hb : (k == a) = false := by simp [Ne.symm h]
      simp [List.count_cons, h, hb]

/-- Folding all sessions' label lists into the frequency counter yields, at
each label, the sum over sessions of that label's multiplicity. -/
lemma counter_get_fold_sessions (sessions : List SessionRecord) (acc : List (String × Nat))
    (k : String) :
    counter_get (sessions.foldl (fun acc s => s.approaches.foldl bump_count acc) acc) k =
      counter_get acc k + ((sessions.map (fun s => s.approaches.count k)).sum) := by
  induction sessions generalizing acc with
  | nil => simp [counter_get]
  | cons s rest ih =>
    rw [List.foldl_cons, ih, counter_get_fold_labels]
    simp only [List.map_cons, List.sum_cons]
    omega

/-- C8: over analyzer-produced session records, every per-label count of the
corpus approach-frequency counter and every count in `pattern_statistics` is
bounded by the total session count — each session contributes at most once
per label (its label list is duplicate-free) and at most once per boolean
gate. -/
theorem spec_C8_counts_bounded (sessions : List SessionRecord)
    (h : ∀ s ∈ sessions, ∃ (metadata : Option Metadata) (dn mp : String)
      (messages : List Message), analyze_session metadata dn mp messages = some s) :
    (∀ label, counter_get (generate_summary_statistics sessions).approach_frequencies label ≤
        (generate_summary_statistics sessions).total_sessions) ∧
      (generate_summary_statistics sessions).pattern_statistics.iterative_sessions ≤
        (generate_summary_statistics sessions).total_sessions ∧
      (generate_summary_statistics sessions).pattern_statistics.exploratory_sessions ≤
        (generate_summary_statistics sessions).total_sessions ∧
      (generate_summary_statistics sessions).pattern_statistics.implementation_sessions ≤
        (generate_summary_statistics sessions).total_sessions ∧
      (generate_summary_statistics sessions).pattern_statistics.delegated_sessions ≤
        (generate_summary_statistics sessions).total_sessions ∧
      (generate_summary_statistics sessions).pattern_statistics.validated_sessions ≤
        (generate_summary_statistics sessions).total_sessions ∧
      (generate_summary_statistics sessions).pattern_statistics.error_recovery_sessions ≤
        (generate_summary_statistics sessions).total_sessions := by
  refine ⟨?_, List.countP_le_length _, List.countP_le_length _, List.countP_le_length _,
    List.countP_le_length _, List.countP_le_length _, List.countP_le_length _⟩
  intro label
  have hfreq : counter_get (generate_summary_statistics sessions).approach_frequencies label =
      ((sessions.map (fun s => s.approaches.count label)).sum) := by
    have hc := counter_get_fold_sessions sessions [] label
    simpa [counter_get] using hc
  rw [hfreq]
  have hbound : ∀ x ∈ sessions.map (fun s => s.approaches.count label), x ≤ 1 := by
    intro x hx
    rw [List.mem_map] at hx
    obtain ⟨s, hs, rfl⟩ := hx
    obtain ⟨md, dn, mp, msgs, heq⟩ := h s hs
    obtain ⟨ha, -⟩ := analyze_session_some heq
    rw [ha]
    exact List.nodup_iff_count_le_one.1 (categorize_approach_nodup _) label
  calc (sessions.map (fun s => s.approaches.count label)).sum
      ≤ (sessions.map (fun s => s.approaches.count label)).length • 1 :=
        List.sum_le_card_nsmul _ _ hbound
    _ = sessions.length := by simp

/-- Witness for C8 at the one-session corpus. -/
theorem spec_C8_witness :
    counter_get (generate_summary_statistics [sample_record]).approach_frequencies
        "Iterative Refinement" ≤ (generate_summary_statistics [sample_record]).total_sessions :=
  (spec_C8_counts_bounded [sample_record] (by
    intro s hs
    rw [List.mem_singleton] at hs
    subst hs
    exact ⟨some {}, "dir", "path", sample_messages, by decide⟩)).1 "Iterative Refinement"

end SessionAnalysis
